import Mathlib

/-!
Verification development for a console record-management system
(courses / employees / students persisted as newline-delimited JSON).

The Python source (`main.py`) is shallowly embedded here:
* persisted records (the dicts produced by `to_dict` and stored one per
  line) become Lean structures;
* the relationship operations (`assign_course_to_employee`,
  `unassign_course`, `register_for_course`, `unregister_from_course`)
  become pure functions from the in-memory record lists to
  `Option (new record lists)`, where `some` means the code reached its
  `write_record` call (the store is overwritten with the returned list)
  and `none` means the function returned without writing;
* the `FileHandler` read/write pair is embedded over an abstract file
  state (`none` = file absent, `some lines` = file contents line by
  line), a line being modelled by the JSON value it parses to, or as
  malformed.

Costs and balances are Python floats; the claims under study are about
exact bookkeeping (adding and subtracting course costs), so they are
modelled as rationals.  Salaries are integers.
-/

/-- The `Address` dictionary: city, country, zip code, all free text. -/
structure AddressRec where
  city : String
  country : String
  zip_code : String
deriving DecidableEq, Repr

/-- The dictionary produced by `Course.to_dict` and stored one per line in
`courses.json`.  Dates and times are serialized strings and are opaque here. -/
structure CourseRec where
  Subject : String
  CRN : Int
  StartDate : String
  EndDate : String
  StartTime : String
  EndTime : String
  Cost : ℚ
deriving DecidableEq, Repr

/-- The dictionary produced by `Employee.to_dict` and stored in
`employees.json`.  The `Courses` key holds full embedded course records;
`assign_course_to_employee` explicitly guards `"Courses" not in employee`,
so the field is modelled as optional. -/
structure EmployeeRec where
  Name : String
  ID : String
  DOB : String
  Address : AddressRec
  Department : String
  Courses : Option (List CourseRec)
  Salary : Int
deriving DecidableEq, Repr

/-- The dictionary produced by `Student.to_dict` and stored in
`students.json`.  `Courses` holds course subject strings only.  The code
accesses `record["Courses"]` and `record["Balance"]` directly (they are
always present in records produced by `to_dict`), so they are required
fields. -/
structure StudentRec where
  Name : String
  ID : String
  DOB : String
  Address : AddressRec
  Courses : List String
  Balance : ℚ
deriving DecidableEq, Repr

/-- `Employee.BASE_SALARY = 30000`. -/
def BASE_SALARY : Int := 30000

/-- `Employee.PER_COURSE_BONUS = 5000`. -/
def PER_COURSE_BONUS : Int := 5000

/-- The inner loop of `assign_course_to_employee` (main.py lines 435-446):
first course record whose `CRN` equals the requested one.  Also the loop of
`register_for_course` over the course store. -/
def findCourseByCRN (crn : Int) : List CourseRec → Option CourseRec
  | [] => none
  | c :: cs => if c.CRN = crn then some c else findCourseByCRN crn cs

/-- The loop of `unregister_from_course` (lines 629-632): first course
record whose `Subject` equals the removed subject string. -/
def findCourseBySubject (subj : String) : List CourseRec → Option CourseRec
  | [] => none
  | c :: cs => if c.Subject = subj then some c else findCourseBySubject subj cs

/-- The mutation `assign_course_to_employee` performs on the matched
employee record (lines 439-443): initialize `Courses` to `[]` when the key
is missing, append the full course record, recompute
`Salary = BASE_SALARY + len(Courses) * PER_COURSE_BONUS`. -/
def assignToEmployee (course : CourseRec) (e : EmployeeRec) : EmployeeRec :=
  { e with
    Courses := some (e.Courses.getD [] ++ [course])
    Salary := BASE_SALARY +
      (((e.Courses.getD [] ++ [course]).length : Int) * PER_COURSE_BONUS) }

/-- `assign_course_to_employee` (lines 429-451) at the record-store level:
scan employees for the first record with the given `ID`; if found, look the
course up by `crn`; on success mutate that record and write the whole list
back.  `some` = `write_record` was reached with that list, `none` =
"Employee not found." or "Course not found." and no write. -/
def assign_course_to_employee (mem_id : String) (crn : Int)
    (courses : List CourseRec) : List EmployeeRec → Option (List EmployeeRec)
  | [] => none
  | e :: es =>
    if e.ID = mem_id then
      match findCourseByCRN crn courses with
      | some c => some (assignToEmployee c e :: es)
      | none => none
    else
      (assign_course_to_employee mem_id crn courses es).map (fun t => e :: t)

/-- The mutation `unassign_course` performs on the matched employee record
(lines 493-528): requires the `Courses` key present and nonempty; the
1-based selection `sel` gives index `sel - 1`, which must be in range; the
course at that index is popped and the salary recomputed.  `none` = no
write (missing/empty courses, or invalid index). -/
def unassignFromEmployee (sel : Int) (e : EmployeeRec) : Option EmployeeRec :=
  match e.Courses with
  | none => none
  | some cs =>
    if cs.isEmpty then none
    else if 0 ≤ sel - 1 ∧ sel - 1 < (cs.length : Int) then
      some { e with
             Courses := some (cs.eraseIdx (sel - 1).toNat)
             Salary := BASE_SALARY +
               (((cs.eraseIdx (sel - 1).toNat).length : Int) * PER_COURSE_BONUS) }
    else none

/-- `unassign_course` (lines 486-532) at the record-store level: scan for
the first employee with the given `ID` and apply `unassignFromEmployee`;
the whole list is written back on success. -/
def unassign_course (mem_id : String) (sel : Int) :
    List EmployeeRec → Option (List EmployeeRec)
  | [] => none
  | e :: es =>
    if e.ID = mem_id then (unassignFromEmployee sel e).map (fun e2 => e2 :: es)
    else (unassign_course mem_id sel es).map (fun t => e :: t)

/-- The mutation `register_for_course` performs on the matched student
record (lines 582-601): refuse when the student already holds 5 courses
(`len >= 5`), refuse when `Balance >= 10000` (checked before adding the
new cost); otherwise look the course up by `crn`, append its `Subject` and
add its `Cost` to the balance.  `none` = refused or course not found, no
write. -/
def registerStudent (crn : Int) (courses : List CourseRec)
    (s : StudentRec) : Option StudentRec :=
  if 5 ≤ s.Courses.length then none
  else if 10000 ≤ s.Balance then none
  else
    match findCourseByCRN crn courses with
    | some c =>
      some { s with Courses := s.Courses ++ [c.Subject]
                    Balance := s.Balance + c.Cost }
    | none => none

/-- `register_for_course` (lines 575-605) at the record-store level. -/
def register_for_course (mem_id : String) (crn : Int)
    (courses : List CourseRec) : List StudentRec → Option (List StudentRec)
  | [] => none
  | s :: ss =>
    if s.ID = mem_id then (registerStudent crn courses s).map (fun s2 => s2 :: ss)
    else (register_for_course mem_id crn courses ss).map (fun t => s :: t)

/-- The mutation `unregister_from_course` performs on the matched student
record (lines 614-638): requires a nonempty course list; the 1-based
selection gives index `sel - 1`, which must be in range; the subject at
that index is popped, then the course store is scanned for the first
course with that subject and its cost subtracted from the balance — if no
such course exists the balance is left unchanged; the store is written in
either case.  `none` = no write (empty list or invalid index). -/
def unregisterStudent (sel : Int) (courses : List CourseRec)
    (s : StudentRec) : Option StudentRec :=
  if s.Courses.isEmpty then none
  else if 0 ≤ sel - 1 ∧ sel - 1 < (s.Courses.length : Int) then
    some { s with
           Courses := s.Courses.eraseIdx (sel - 1).toNat
           Balance :=
             match findCourseBySubject (s.Courses.getD (sel - 1).toNat "") courses with
             | some c => s.Balance - c.Cost
             | none => s.Balance }
  else none

/-- `unregister_from_course` (lines 607-642) at the record-store level. -/
def unregister_from_course (mem_id : String) (sel : Int)
    (courses : List CourseRec) : List StudentRec → Option (List StudentRec)
  | [] => none
  | s :: ss =>
    if s.ID = mem_id then (unregisterStudent sel courses s).map (fun s2 => s2 :: ss)
    else (unregister_from_course mem_id sel courses ss).map (fun t => s :: t)

/-! ### The `Employee` class (main.py lines 147-190) -/

/-- The `Course` class: in-memory course object (dates kept opaque as
strings in this model). -/
structure Course where
  subject : String
  crn : Int
  start_date : String
  end_date : String
  start_time : String
  end_time : String
  cost : ℚ
deriving DecidableEq, Repr

/-- The `Employee` class: `courses` starts empty and `salary` at
`BASE_SALARY` in `__init__`. -/
structure Employee where
  name : String
  mem_id : String
  dob : String
  address : AddressRec
  department : String
  courses : List Course
  salary : Int
deriving DecidableEq, Repr

/-- `Employee.assign_course` (lines 159-162): append the course and
recompute the salary. -/
def Employee.assign_course (e : Employee) (c : Course) : Employee :=
  let cs := e.courses ++ [c]
  { e with courses := cs
           salary := BASE_SALARY + (cs.length : Int) * PER_COURSE_BONUS }

/-- `Employee.remove_course` (lines 164-168): if the course is in the list,
remove it (Python `list.remove`, first occurrence) and recompute the
salary; otherwise do nothing. -/
def Employee.remove_course (e : Employee) (c : Course) : Employee :=
  if c ∈ e.courses then
    let cs := e.courses.erase c
    { e with courses := cs
             salary := BASE_SALARY + (cs.length : Int) * PER_COURSE_BONUS }
  else e

/-! ### The `FileHandler` class (main.py lines 33-57)

A JSON value, a line of a newline-delimited JSON file, and the abstract
file state.  `json.dumps`/`json.loads` belong to the Python standard
library, not to this repository; their contract — `dumps` produces a
single line that `loads` parses back to the same value, and `loads`
fails on malformed text — is embedded by modelling a line by the value
it parses to (`some j`) or as malformed (`none`). -/

/-- A JSON-serializable value: null, boolean, number, string, array, or
object (ordered field list). -/
inductive Json where
  | null : Json
  | bool : Bool → Json
  | num : ℚ → Json
  | str : String → Json
  | arr : List Json → Json
  | obj : List (String × Json) → Json

/-- One line of the file: the JSON value it parses to, or `none` for a
line `json.loads` rejects. -/
abbrev JsonLine : Type := Option Json

/-- `json.dumps(record)`: one well-formed line holding exactly the record. -/
def dumps (j : Json) : JsonLine := some j

/-- `json.loads(line)`: the parsed value, failing on a malformed line. -/
def loads (l : JsonLine) : Option Json := l

/-- The comprehension `[json.loads(line) for line in file]` (line 45):
parse every line in order; the first malformed line raises
`JSONDecodeError`, which the caller turns into `[]`. -/
def loadAll : List JsonLine → Option (List Json)
  | [] => some []
  | l :: ls =>
    match loads l with
    | none => none
    | some j =>
      match loadAll ls with
      | none => none
      | some js => some (j :: js)

/-- `FileHandler.read_records_file` (lines 39-48): a missing file yields
`[]`; otherwise every line is parsed in order, and a `JSONDecodeError`
is reported and turned into `[]` instead of propagating. -/
def read_records_file (fs : Option (List JsonLine)) : List Json :=
  match fs with
  | none => []
  | some lines =>
    match loadAll lines with
    | some recs => recs
    | none => []

/-- `FileHandler.write_record` (lines 50-57): open in `"w"` mode (the prior
content is discarded) and write each record as one line. -/
def write_record (records : List Json) (_fs : Option (List JsonLine)) :
    Option (List JsonLine) :=
  some (records.map dumps)

/-! ### Derived-state invariant and operation sequences -/

/-- The salary invariant of the spec: the stored `Salary` equals
`30000 + 5000 * len(Courses)`, a missing `Courses` key counting as empty. -/
def salaryInv (e : EmployeeRec) : Prop :=
  e.Salary = BASE_SALARY + ((e.Courses.getD []).length : Int) * PER_COURSE_BONUS

instance (e : EmployeeRec) : Decidable (salaryInv e) := by
  unfold salaryInv; infer_instance

/-- One menu action touching the employee store: an assign (with the
course store as read at that moment) or an unassign. -/
inductive EmpOp where
  | assign : String → Int → List CourseRec → EmpOp
  | unassign : String → Int → EmpOp

/-- Run one employee-store operation. -/
def runEmpOp (es : List EmployeeRec) : EmpOp → Option (List EmployeeRec)
  | EmpOp.assign m crn cs => assign_course_to_employee m crn cs es
  | EmpOp.unassign m sel => unassign_course m sel es

/-- Run a sequence of employee-store operations, each of which must
succeed (reach its write). -/
def runEmpOps (es : List EmployeeRec) : List EmpOp → Option (List EmployeeRec)
  | [] => some es
  | o :: os =>
    match runEmpOp es o with
    | some es2 => runEmpOps es2 os
    | none => none

/-! ### Frame predicates -/

/-- All employee-record fields other than `Courses` and `Salary` agree. -/
def onlyCoursesSalaryChanged (e e2 : EmployeeRec) : Prop :=
  e2.Name = e.Name ∧ e2.ID = e.ID ∧ e2.DOB = e.DOB ∧
    e2.Address = e.Address ∧ e2.Department = e.Department

/-- All student-record fields other than `Courses` and `Balance` agree. -/
def onlyCoursesBalanceChanged (s s2 : StudentRec) : Prop :=
  s2.Name = s.Name ∧ s2.ID = s.ID ∧ s2.DOB = s.DOB ∧ s2.Address = s.Address

/-- The written employee store differs from the read one in at most the
first record whose `ID` matches, and within it only `Courses`/`Salary`. -/
def empStoreFrame (mem_id : String) (es es2 : List EmployeeRec) : Prop :=
  ∃ front e e2 back,
    es = front ++ e :: back ∧ es2 = front ++ e2 :: back ∧
    (∀ x ∈ front, x.ID ≠ mem_id) ∧ e.ID = mem_id ∧
    onlyCoursesSalaryChanged e e2

/-- The written student store differs from the read one in at most the
first record whose `ID` matches, and within it only `Courses`/`Balance`. -/
def stuStoreFrame (mem_id : String) (ss ss2 : List StudentRec) : Prop :=
  ∃ front s s2 back,
    ss = front ++ s :: back ∧ ss2 = front ++ s2 :: back ∧
    (∀ x ∈ front, x.ID ≠ mem_id) ∧ s.ID = mem_id ∧
    onlyCoursesBalanceChanged s s2

/-- First student record with the given `ID` — the record every
student-menu operation acts on. -/
def findFirstStudent (mem_id : String) : List StudentRec → Option StudentRec
  | [] => none
  | s :: ss => if s.ID = mem_id then some s else findFirstStudent mem_id ss

/-! ### Concrete records for scenarios and witnesses -/

/-- The spec's example course: CRN 1001, cost 500. -/
def demoCourse : CourseRec :=
  { Subject := "Math101", CRN := 1001, StartDate := "2024-01-01"
    EndDate := "2024-05-01", StartTime := "09:00", EndTime := "10:00"
    Cost := 500 }

/-- A demo address. -/
def demoAddress : AddressRec :=
  { city := "Riyadh", country := "KSA", zip_code := "12345" }

/-- A freshly added employee record (as `Employee.to_dict` produces it:
empty courses, base salary). -/
def demoEmp0 : EmployeeRec :=
  { Name := "E", ID := "MEM1001", DOB := "1990-01-01", Address := demoAddress
    Department := "Math", Courses := some [], Salary := 30000 }

/-- `demoEmp0` after one assignment of `demoCourse`. -/
def demoEmp1 : EmployeeRec :=
  { demoEmp0 with Courses := some [demoCourse], Salary := 35000 }

/-- `demoEmp0` after two assignments of `demoCourse`. -/
def demoEmp2 : EmployeeRec :=
  { demoEmp0 with Courses := some [demoCourse, demoCourse], Salary := 40000 }

/-- An employee record lacking the `Courses` key. -/
def demoEmpNoCourses : EmployeeRec :=
  { Name := "F", ID := "MEM1002", DOB := "1991-01-01", Address := demoAddress
    Department := "CS", Courses := none, Salary := 30000 }

/-- A student with balance 9999 and no courses. -/
def demoStudent9999 : StudentRec :=
  { Name := "S", ID := "MEM2001", DOB := "2000-01-01", Address := demoAddress
    Courses := [], Balance := 9999 }

/-- A student with balance exactly 10000. -/
def demoStudent10000 : StudentRec :=
  { Name := "T", ID := "MEM2002", DOB := "2000-01-02", Address := demoAddress
    Courses := [], Balance := 10000 }

/-- A student already holding 5 courses. -/
def demoStudentFull : StudentRec :=
  { Name := "U", ID := "MEM2003", DOB := "2000-01-03", Address := demoAddress
    Courses := ["a", "b", "c", "d", "e"], Balance := 0 }

/-- A student holding one course, `demoCourse`'s subject, balance 500. -/
def demoStudent1 : StudentRec :=
  { Name := "V", ID := "MEM2004", DOB := "2000-01-04", Address := demoAddress
    Courses := ["Math101"], Balance := 500 }

/-- The in-memory `Employee` object used for `remove_course`. -/
def demoCourseObj : Course :=
  { subject := "Math101", crn := 1001, start_date := "2024-01-01"
    end_date := "2024-05-01", start_time := "09:00", end_time := "10:00"
    cost := 500 }

/-- A second, distinct course object. -/
def demoCourseObj2 : Course :=
  { demoCourseObj with subject := "Phys101", crn := 1002 }

/-- An employee object holding exactly `demoCourseObj`. -/
def demoEmpObj : Employee :=
  { name := "E", mem_id := "MEM1001", dob := "1990-01-01"
    address := demoAddress, department := "Math"
    courses := [demoCourseObj], salary := 35000 }

/-- The common loop shape shared by all four relationship operations: walk
the store, and at the first record whose identifier matches apply the
record transformer; `some` only if the transformer reaches a write. -/
def updateFirstById {α : Type} (getId : α → String) (mem_id : String)
    (g : α → Option α) : List α → Option (List α)
  | [] => none
  | x :: xs =>
    if getId x = mem_id then (g x).map (fun x2 => x2 :: xs)
    else (updateFirstById getId mem_id g xs).map (fun t => x :: t)

/-! ## Theorems -/

theorem assign_course_bridge (m : String) (crn : Int) (cs : List CourseRec) :
    ∀ es : List EmployeeRec,
      assign_course_to_employee m crn cs es =
        updateFirstById EmployeeRec.ID m
          (fun e => (findCourseByCRN crn cs).map (fun c => assignToEmployee c e)) es
  | [] => rfl
  | e :: es => by
    simp only [assign_course_to_employee, updateFirstById]
    by_cases hid : e.ID = m
    · rw [if_pos hid, if_pos hid]
      cases findCourseByCRN crn cs <;> rfl
    · rw [if_neg hid, if_neg hid, assign_course_bridge m crn cs es]

theorem unassign_course_bridge (m : String) (sel : Int) :
    ∀ es : List EmployeeRec,
      unassign_course m sel es =
        updateFirstById EmployeeRec.ID m (unassignFromEmployee sel) es
  | [] => rfl
  | e :: es => by
    simp only [unassign_course, updateFirstById]
    by_cases hid : e.ID = m
    · rw [if_pos hid, if_pos hid]
    · rw [if_neg hid, if_neg hid, unassign_course_bridge m sel es]

theorem register_course_bridge (m : String) (crn : Int) (cs : List CourseRec) :
    ∀ ss : List StudentRec,
      register_for_course m crn cs ss =
        updateFirstById StudentRec.ID m (registerStudent crn cs) ss
  | [] => rfl
  | s :: ss => by
    simp only [register_for_course, updateFirstById]
    by_cases hid : s.ID = m
    · rw [if_pos hid, if_pos hid]
    · rw [if_neg hid, if_neg hid, register_course_bridge m crn cs ss]

theorem unregister_course_bridge (m : String) (sel : Int) (cs : List CourseRec) :
    ∀ ss : List StudentRec,
      unregister_from_course m sel cs ss =
        updateFirstById StudentRec.ID m (unregisterStudent sel cs) ss
  | [] => rfl
  | s :: ss => by
    simp only [unregister_from_course, updateFirstById]
    by_cases hid : s.ID = m
    · rw [if_pos hid, if_pos hid]
    · rw [if_neg hid, if_neg hid, unregister_course_bridge m sel cs ss]

theorem updateFirstById_some {α : Type} {getId : α → String} {m : String}
    {g : α → Option α} :
    ∀ {xs xs2 : List α}, updateFirstById getId m g xs = some xs2 →
      ∃ front x x2 back,
        xs = front ++ x :: back ∧ xs2 = front ++ x2 :: back ∧
        (∀ y ∈ front, getId y ≠ m) ∧ getId x = m ∧ g x = some x2 := by
  intro xs
  induction xs with
  | nil => intro xs2 h; simp [updateFirstById] at h
  | cons x t ih =>
    intro xs2 h
    simp only [updateFirstById] at h
    by_cases hid : getId x = m
    · rw [if_pos hid] at h
      rcases Option.map_eq_some'.mp h with ⟨x2, hx2, rfl⟩
      exact ⟨[], x, x2, t, rfl, rfl, by simp, hid, hx2⟩
    · rw [if_neg hid] at h
      rcases Option.map_eq_some'.mp h with ⟨t2, ht2, rfl⟩
      rcases ih ht2 with ⟨front, y, y2, back, h1, h2, h3, h4, h5⟩
      refine ⟨x :: front, y, y2, back, by rw [h1]; rfl, by rw [h2]; rfl, ?_, h4, h5⟩
      intro z hz
      rcases List.mem_cons.mp hz with rfl | hz
      · exact hid
      · exact h3 z hz

theorem assignToEmployee_frame (c : CourseRec) (e : EmployeeRec) :
    onlyCoursesSalaryChanged e (assignToEmployee c e) :=
  ⟨rfl, rfl, rfl, rfl, rfl⟩

theorem unassignFromEmployee_frame {sel : Int} {e e2 : EmployeeRec}
    (h : unassignFromEmployee sel e = some e2) :
    onlyCoursesSalaryChanged e e2 := by
  unfold unassignFromEmployee at h
  split at h
  · exact Option.noConfusion h
  · split_ifs at h
    injection h with h3
    subst h3
    exact ⟨rfl, rfl, rfl, rfl, rfl⟩

theorem registerStudent_frame {crn : Int} {cs : List CourseRec}
    {s s2 : StudentRec} (h : registerStudent crn cs s = some s2) :
    onlyCoursesBalanceChanged s s2 := by
  unfold registerStudent at h
  split_ifs at h
  split at h
  · injection h with h3
    subst h3
    exact ⟨rfl, rfl, rfl, rfl⟩
  · exact Option.noConfusion h

theorem unregisterStudent_frame {sel : Int} {cs : List CourseRec}
    {s s2 : StudentRec} (h : unregisterStudent sel cs s = some s2) :
    onlyCoursesBalanceChanged s s2 := by
  unfold unregisterStudent at h
  split_ifs at h
  injection h with h3
  subst h3
  exact ⟨rfl, rfl, rfl, rfl⟩

theorem assign_course_frame {m : String} {crn : Int} {cs : List CourseRec}
    {es es2 : List EmployeeRec}
    (h : assign_course_to_employee m crn cs es = some es2) :
    empStoreFrame m es es2 := by
  rw [assign_course_bridge] at h
  rcases updateFirstById_some h with ⟨front, x, x2, back, h1, h2, h3, h4, h5⟩
  rcases Option.map_eq_some'.mp h5 with ⟨c, _, rfl⟩
  exact ⟨front, x, assignToEmployee c x, back, h1, h2, h3, h4,
    assignToEmployee_frame c x⟩

theorem unassign_course_frame {m : String} {sel : Int}
    {es es2 : List EmployeeRec}
    (h : unassign_course m sel es = some es2) :
    empStoreFrame m es es2 := by
  rw [unassign_course_bridge] at h
  rcases updateFirstById_some h with ⟨front, x, x2, back, h1, h2, h3, h4, h5⟩
  exact ⟨front, x, x2, back, h1, h2, h3, h4, unassignFromEmployee_frame h5⟩

theorem register_course_frame {m : String} {crn : Int} {cs : List CourseRec}
    {ss ss2 : List StudentRec}
    (h : register_for_course m crn cs ss = some ss2) :
    stuStoreFrame m ss ss2 := by
  rw [register_course_bridge] at h
  rcases updateFirstById_some h with ⟨front, x, x2, back, h1, h2, h3, h4, h5⟩
  exact ⟨front, x, x2, back, h1, h2, h3, h4, registerStudent_frame h5⟩

theorem unregister_course_frame {m : String} {sel : Int} {cs : List CourseRec}
    {ss ss2 : List StudentRec}
    (h : unregister_from_course m sel cs ss = some ss2) :
    stuStoreFrame m ss ss2 := by
  rw [unregister_course_bridge] at h
  rcases updateFirstById_some h with ⟨front, x, x2, back, h1, h2, h3, h4, h5⟩
  exact ⟨front, x, x2, back, h1, h2, h3, h4, unregisterStudent_frame h5⟩

theorem assignToEmployee_inv (c : CourseRec) (e : EmployeeRec) :
    salaryInv (assignToEmployee c e) := rfl

theorem unassignFromEmployee_inv {sel : Int} {e e2 : EmployeeRec}
    (h : unassignFromEmployee sel e = some e2) : salaryInv e2 := by
  unfold unassignFromEmployee at h
  split at h
  · exact Option.noConfusion h
  · split_ifs at h
    injection h with h3
    subst h3
    rfl

theorem assign_course_inv {m : String} {crn : Int} {cs : List CourseRec}
    {es es2 : List EmployeeRec}
    (hinv : ∀ x ∈ es, salaryInv x)
    (h : assign_course_to_employee m crn cs es = some es2) :
    ∀ x ∈ es2, salaryInv x := by
  rw [assign_course_bridge] at h
  rcases updateFirstById_some h with ⟨front, y, y2, back, h1, h2, h3, h4, h5⟩
  rcases Option.map_eq_some'.mp h5 with ⟨c, _, rfl⟩
  subst h1; subst h2
  intro x hx
  rcases List.mem_append.mp hx with hx | hx
  · exact hinv x (List.mem_append.mpr (Or.inl hx))
  · rcases List.mem_cons.mp hx with rfl | hx
    · exact assignToEmployee_inv c y
    · exact hinv x (List.mem_append.mpr (Or.inr (List.mem_cons.mpr (Or.inr hx))))

theorem unassign_course_inv {m : String} {sel : Int}
    {es es2 : List EmployeeRec}
    (hinv : ∀ x ∈ es, salaryInv x)
    (h : unassign_course m sel es = some es2) :
    ∀ x ∈ es2, salaryInv x := by
  rw [unassign_course_bridge] at h
  rcases updateFirstById_some h with ⟨front, y, y2, back, h1, h2, h3, h4, h5⟩
  subst h1; subst h2
  intro x hx
  rcases List.mem_append.mp hx with hx | hx
  · exact hinv x (List.mem_append.mpr (Or.inl hx))
  · rcases List.mem_cons.mp hx with rfl | hx
    · exact unassignFromEmployee_inv h5
    · exact hinv x (List.mem_append.mpr (Or.inr (List.mem_cons.mpr (Or.inr hx))))

theorem runEmpOps_inv :
    ∀ (ops : List EmpOp) (es es2 : List EmployeeRec),
      (∀ x ∈ es, salaryInv x) → runEmpOps es ops = some es2 →
      ∀ x ∈ es2, salaryInv x
  | [], es, es2, hinv, h => by
    simp only [runEmpOps] at h
    injection h with h
    subst h
    exact hinv
  | o :: os, es, es2, hinv, h => by
    simp only [runEmpOps] at h
    cases ho : runEmpOp es o with
    | none => rw [ho] at h; exact Option.noConfusion h
    | some es1 =>
      rw [ho] at h
      have hinv1 : ∀ x ∈ es1, salaryInv x := by
        cases o with
        | assign m crn cs =>
          exact assign_course_inv hinv ho
        | unassign m sel =>
          exact unassign_course_inv hinv ho
      exact runEmpOps_inv os es1 es2 hinv1 h

theorem register_none_of_refused {m : String} {crn : Int}
    {cs : List CourseRec} :
    ∀ {ss : List StudentRec} {s : StudentRec},
      findFirstStudent m ss = some s →
      (5 ≤ s.Courses.length ∨ 10000 ≤ s.Balance) →
      register_for_course m crn cs ss = none := by
  intro ss
  induction ss with
  | nil => intro s h; exact Option.noConfusion h
  | cons x t ih =>
    intro s h href
    unfold findFirstStudent at h
    unfold register_for_course
    by_cases hid : x.ID = m
    · rw [if_pos hid] at h
      injection h with h
      subst h
      rw [if_pos hid]
      have hreg : registerStudent crn cs x = none := by
        unfold registerStudent
        by_cases h5 : 5 ≤ x.Courses.length
        · rw [if_pos h5]
        · rw [if_neg h5]
          have hb : 10000 ≤ x.Balance := by
            rcases href with href | href
            · exact absurd href h5
            · exact href
          rw [if_pos hb]
      rw [hreg]
      rfl
    · rw [if_neg hid] at h
      rw [if_neg hid, ih h href]
      rfl

theorem loadAll_dumps : ∀ recs : List Json, loadAll (recs.map dumps) = some recs
  | [] => rfl
  | r :: rs => by
    simp only [List.map_cons, loadAll, loads, dumps]
    rw [loadAll_dumps rs]

theorem loadAll_malformed {lines : List JsonLine} (h : none ∈ lines) :
    loadAll lines = none := by
  induction lines with
  | nil => simp at h
  | cons l ls ih =>
    rcases List.mem_cons.mp h with h | h
    · subst h; rfl
    · unfold loadAll
      rw [ih h]
      cases hl : loads l
      · rfl
      · rfl

/-- Claim C1: after any sequence of `assign_course_to_employee` and
`unassign_course` operations that succeed (each reaches its write), every
stored employee record has `Salary = 30000 + 5000 * len(Courses)`; the
salary is recomputed from the course count at every mutation rather than
carried forward. -/
theorem spec_C1_salary_invariant (ops : List EmpOp)
    (es es2 : List EmployeeRec)
    (hinv : ∀ x ∈ es, salaryInv x)
    (h : runEmpOps es ops = some es2) :
    ∀ x ∈ es2, salaryInv x :=
  runEmpOps_inv ops es es2 hinv h

theorem spec_C1_witness : salaryInv demoEmp2 :=
  spec_C1_salary_invariant
    [EmpOp.assign "MEM1001" 1001 [demoCourse],
     EmpOp.assign "MEM1001" 1001 [demoCourse]]
    [demoEmp0] [demoEmp2] (by decide) (by decide)
    demoEmp2 (List.mem_singleton.mpr rfl)

/-- Claim C2: a registration attempt for a student who already holds 5
courses, or whose balance is at least 10000 before the new cost is added,
is refused: `register_for_course` returns without calling `write_record`
(result `none`), so the student store is untouched. -/
theorem spec_C2_registration_refused (m : String) (crn : Int)
    (cs : List CourseRec) (ss : List StudentRec) (s : StudentRec)
    (hfind : findFirstStudent m ss = some s)
    (href : 5 ≤ s.Courses.length ∨ 10000 ≤ s.Balance) :
    register_for_course m crn cs ss = none :=
  register_none_of_refused hfind href

theorem spec_C2_witness :
    register_for_course "MEM2003" 1001 [demoCourse] [demoStudentFull] = none :=
  spec_C2_registration_refused "MEM2003" 1001 [demoCourse] [demoStudentFull]
    demoStudentFull (by decide) (Or.inl (by decide))

/-- Claim C3: writing any sequence of records with `write_record` and then
reading with `read_records_file` returns exactly the records written, in
order, with every field value preserved. -/
theorem spec_C3_roundtrip (recs : List Json) (fs : Option (List JsonLine)) :
    read_records_file (write_record recs fs) = recs := by
  simp only [write_record, read_records_file]
  rw [loadAll_dumps]

/-- Claim C4: `read_records_file` on a missing or empty file returns the
empty sequence, and on content containing a malformed line it reports the
decode error and returns the empty sequence instead of propagating an
exception. -/
theorem spec_C4_read_recovers (fs : Option (List JsonLine))
    (h : fs = none ∨ fs = some [] ∨
      ∃ lines, fs = some lines ∧ none ∈ lines) :
    read_records_file fs = [] := by
  rcases h with h | h | ⟨lines, h, hm⟩
  · subst h; rfl
  · subst h; rfl
  · subst h
    simp only [read_records_file]
    rw [loadAll_malformed hm]

theorem spec_C4_witness :
    read_records_file (some [dumps Json.null, (none : JsonLine)]) = [] :=
  spec_C4_read_recovers (some [dumps Json.null, none])
    (Or.inr (Or.inr ⟨[dumps Json.null, none], rfl, by simp⟩))

/-- Claim C5: for a student unregistering at a valid 1-based index,
`unregister_from_course` removes the subject string at that index, then
subtracts from the balance the `Cost` of the first course in the course
store whose `Subject` equals the removed subject; if no such course
exists the balance is unchanged; in either case the updated store is
written. -/
theorem spec_C5_unregister (s : StudentRec) (ss : List StudentRec)
    (sel : Int) (cs : List CourseRec) (subj : String)
    (hsel : 1 ≤ sel)
    (hget : s.Courses[(sel - 1).toNat]? = some subj) :
    unregister_from_course s.ID sel cs (s :: ss) =
      some ({ s with
              Courses := s.Courses.eraseIdx (sel - 1).toNat
              Balance :=
                match findCourseBySubject subj cs with
                | some c => s.Balance - c.Cost
                | none => s.Balance } :: ss) := by
  have hlt : (sel - 1).toNat < s.Courses.length :=
    (List.getElem?_eq_some.mp hget).1
  have hne : ¬s.Courses.isEmpty = true := by
    cases hcs : s.Courses with
    | nil => rw [hcs] at hlt; simp at hlt
    | cons a t => simp [List.isEmpty]
  have hrange : 0 ≤ sel - 1 ∧ sel - 1 < (s.Courses.length : Int) := by
    constructor
    · omega
    · omega
  have hgd : s.Courses.getD (sel - 1).toNat "" = subj := by
    rw [List.getD_eq_getElem?_getD, hget]
    rfl
  have hreg : unregisterStudent sel cs s =
      some { s with
             Courses := s.Courses.eraseIdx (sel - 1).toNat
             Balance :=
               match findCourseBySubject subj cs with
               | some c => s.Balance - c.Cost
               | none => s.Balance } := by
    unfold unregisterStudent
    rw [if_neg hne, if_pos hrange, hgd]
  unfold unregister_from_course
  rw [if_pos rfl, hreg]
  rfl

theorem spec_C5_witness :
    unregister_from_course "MEM2004" 1 [demoCourse] [demoStudent1] =
      some [{ demoStudent1 with Courses := [], Balance := 0 }] := by
  have h := spec_C5_unregister demoStudent1 [] 1 [demoCourse] "Math101"
    (by decide) (by decide)
  refine h.trans ?_
  simp only [demoStudent1, demoCourse, findCourseBySubject]
  norm_num

theorem register_demo9999_eq :
    register_for_course "MEM2001" 1001 [demoCourse] [demoStudent9999] =
      some [{ demoStudent9999 with Courses := ["Math101"], Balance := 10499 }] := by
  have hreg : registerStudent 1001 [demoCourse] demoStudent9999 =
      some { demoStudent9999 with Courses := ["Math101"], Balance := 10499 } := by
    unfold registerStudent
    rw [if_neg (by decide), if_neg (by norm_num [demoStudent9999]),
      show findCourseByCRN 1001 [demoCourse] = some demoCourse from by decide]
    norm_num [demoStudent9999, demoCourse]
  unfold register_for_course
  rw [if_pos (show demoStudent9999.ID = "MEM2001" by rfl), hreg]
  rfl

theorem unregister_demo1_eq :
    unregister_from_course "MEM2004" 1 [demoCourse] [demoStudent1] =
      some [{ demoStudent1 with Courses := [], Balance := 0 }] := by
  have hreg : unregisterStudent 1 [demoCourse] demoStudent1 =
      some { demoStudent1 with Courses := [], Balance := 0 } := by
    unfold unregisterStudent
    rw [if_neg (by decide), if_pos (by decide)]
    norm_num [demoStudent1, demoCourse, findCourseBySubject, List.getD]
  unfold unregister_from_course
  rw [if_pos (show demoStudent1.ID = "MEM2004" by rfl), hreg]
  rfl

/-- Claim C6: there is no duplicate-assignment check — assigning the same
course (same CRN) to the same employee twice yields a `Courses` sequence of
length 2 and salary 40000, and a subsequent unassign at index 1 yields
length 1 and salary 35000. -/
theorem spec_C6_duplicate_assignment :
    assign_course_to_employee "MEM1001" 1001 [demoCourse] [demoEmp0] =
      some [demoEmp1] ∧
    assign_course_to_employee "MEM1001" 1001 [demoCourse] [demoEmp1] =
      some [demoEmp2] ∧
    (demoEmp2.Courses.getD []).length = 2 ∧ demoEmp2.Salary = 40000 ∧
    unassign_course "MEM1001" 1 [demoEmp2] = some [demoEmp1] ∧
    (demoEmp1.Courses.getD []).length = 1 ∧ demoEmp1.Salary = 35000 := by
  decide

/-- Claim C7 counterexample: the claim says a student with balance exactly
9999 is always rejected with the balance unchanged; in the code the check
is `Balance >= 10000`, so at 9999 the registration goes through — the
store is written with the course appended and balance 9999 + 500 = 10499. -/
theorem spec_C7_counterexample :
    register_for_course "MEM2001" 1001 [demoCourse] [demoStudent9999] =
      some [{ demoStudent9999 with Courses := ["Math101"], Balance := 10499 }] ∧
    register_for_course "MEM2001" 1001 [demoCourse] [demoStudent9999] ≠ none := by
  refine ⟨register_demo9999_eq, ?_⟩
  rw [register_demo9999_eq]
  simp

/-- Claim C7, amended: for a student whose balance is exactly 10000 (the
ceiling the code actually enforces), any registration attempt for any CRN
with any cost is rejected and no write occurs, so the balance stays
unchanged at 10000. -/
theorem spec_C7_balance_ceiling (m : String) (crn : Int)
    (cs : List CourseRec) (ss : List StudentRec) (s : StudentRec)
    (hfind : findFirstStudent m ss = some s)
    (hbal : s.Balance = 10000) :
    register_for_course m crn cs ss = none :=
  register_none_of_refused hfind (Or.inr (le_of_eq hbal.symm))

theorem spec_C7_witness :
    register_for_course "MEM2002" 1001 [demoCourse] [demoStudent10000] = none :=
  spec_C7_balance_ceiling "MEM2002" 1001 [demoCourse] [demoStudent10000]
    demoStudent10000 (by decide) rfl

/-- Claim C8: each relationship operation that reaches its write mutates at
most the first record whose `ID` matches the given member identifier; all
other records are written back unchanged and in order, and within the
matched record only `Courses` and `Salary` (employee) or `Courses` and
`Balance` (student) can change. -/
theorem spec_C8_frame :
    (∀ (m : String) (crn : Int) (cs : List CourseRec)
        (es es2 : List EmployeeRec),
        assign_course_to_employee m crn cs es = some es2 →
        empStoreFrame m es es2) ∧
    (∀ (m : String) (sel : Int) (es es2 : List EmployeeRec),
        unassign_course m sel es = some es2 → empStoreFrame m es es2) ∧
    (∀ (m : String) (crn : Int) (cs : List CourseRec)
        (ss ss2 : List StudentRec),
        register_for_course m crn cs ss = some ss2 → stuStoreFrame m ss ss2) ∧
    (∀ (m : String) (sel : Int) (cs : List CourseRec)
        (ss ss2 : List StudentRec),
        unregister_from_course m sel cs ss = some ss2 →
        stuStoreFrame m ss ss2) :=
  ⟨fun _ _ _ _ _ h => assign_course_frame h,
   fun _ _ _ _ h => unassign_course_frame h,
   fun _ _ _ _ _ h => register_course_frame h,
   fun _ _ _ _ _ h => unregister_course_frame h⟩

theorem spec_C8_witness :
    empStoreFrame "MEM1001" [demoEmp0] [demoEmp1] ∧
    empStoreFrame "MEM1001" [demoEmp2] [demoEmp1] ∧
    stuStoreFrame "MEM2001" [demoStudent9999]
      [{ demoStudent9999 with Courses := ["Math101"], Balance := 10499 }] ∧
    stuStoreFrame "MEM2004" [demoStudent1]
      [{ demoStudent1 with Courses := [], Balance := 0 }] :=
  ⟨spec_C8_frame.1 "MEM1001" 1001 [demoCourse] [demoEmp0] [demoEmp1] (by decide),
   spec_C8_frame.2.1 "MEM1001" 1 [demoEmp2] [demoEmp1] (by decide),
   spec_C8_frame.2.2.1 "MEM2001" 1001 [demoCourse] [demoStudent9999] _
     register_demo9999_eq,
   spec_C8_frame.2.2.2 "MEM2004" 1 [demoCourse] [demoStudent1] _
     unregister_demo1_eq⟩

/-- Claim C9: `Employee.remove_course` called with a course that is not in
the employee's course list leaves the record (course list and salary
included) completely unchanged and raises no error. -/
theorem spec_C9_remove_absent (e : Employee) (c : Course)
    (h : c ∉ e.courses) : e.remove_course c = e := by
  unfold Employee.remove_course
  rw [if_neg h]

theorem spec_C9_witness :
    demoEmpObj.remove_course demoCourseObj2 = demoEmpObj :=
  spec_C9_remove_absent demoEmpObj demoCourseObj2 (by decide)

/-- Claim C10: `assign_course_to_employee` on an employee record lacking
the `Courses` key initializes it to the empty list before appending, so
assigning one course to such a record succeeds and yields a one-element
`Courses` sequence and salary 35000. -/
theorem spec_C10_missing_courses (e : EmployeeRec) (es : List EmployeeRec)
    (crn : Int) (cs : List CourseRec) (c : CourseRec)
    (hno : e.Courses = none) (hc : findCourseByCRN crn cs = some c) :
    assign_course_to_employee e.ID crn cs (e :: es) =
      some ({ e with Courses := some [c], Salary := 35000 } :: es) := by
  have ha : assignToEmployee c e =
      { e with Courses := some [c], Salary := 35000 } := by
    unfold assignToEmployee
    rw [hno]
    norm_num [BASE_SALARY, PER_COURSE_BONUS]
  unfold assign_course_to_employee
  rw [if_pos rfl, hc]
  show some (assignToEmployee c e :: es) = _
  rw [ha]

theorem spec_C10_witness :
    assign_course_to_employee "MEM1002" 1001 [demoCourse] [demoEmpNoCourses] =
      some [{ demoEmpNoCourses with
              Courses := some [demoCourse], Salary := 35000 }] :=
  spec_C10_missing_courses demoEmpNoCourses [] 1001 [demoCourse] demoCourse
    rfl (by decide)
